import Mathlib

/-!
Shallow embedding of `src/homework.py` (fitness-tracker workout calculator).

Conventions of the embedding:
* Python floats are modelled as rationals (`ℚ`); all arithmetic in the source
  is exact decimal arithmetic over these rationals.
* Python exceptions are modelled by `Except PyExn`: `/` and `//` on runtime
  values become `pydiv` / `pyfloordiv`, which return
  `Except.error PyExn.zeroDivisionError` when the divisor is zero, exactly as
  Python raises `ZeroDivisionError`.  An `Except.error` value that reaches the
  top of a computation models an uncaught exception.
* The class hierarchy `Training` / `Running` / `SportsWalking` / `Swimming`
  becomes a sum type whose three constructors are the three concrete variants
  (the base class is never instantiated by `read_package`); method overriding
  becomes pattern matching, with the base-class bodies as the default branches.
-/

/-- Python exceptions that the program can raise:
`KeyError` (dict lookup in `read_package`), `TypeError` (constructor called
with the wrong number of positional arguments via `*data`), and
`ZeroDivisionError` (`/` or `//` with zero divisor). -/
inductive PyExn where
  | keyError
  | typeError
  | zeroDivisionError
deriving DecidableEq, Repr

instance {ε α : Type} [DecidableEq ε] [DecidableEq α] :
    DecidableEq (Except ε α)
  | .error a, .error b =>
    if h : a = b then .isTrue (by rw [h]) else .isFalse (by simp [h])
  | .error _, .ok _ => .isFalse (by simp)
  | .ok _, .error _ => .isFalse (by simp)
  | .ok a, .ok b =>
    if h : a = b then .isTrue (by rw [h]) else .isFalse (by simp [h])

/-- Python `a / b` on floats: raises `ZeroDivisionError` when `b = 0`. -/
def pydiv (a b : ℚ) : Except PyExn ℚ :=
  if b = 0 then .error .zeroDivisionError else .ok (a / b)

/-- Python `a // b` on floats: floor division, raises `ZeroDivisionError`
when `b = 0`. -/
def pyfloordiv (a b : ℚ) : Except PyExn ℚ :=
  if b = 0 then .error .zeroDivisionError else .ok ((⌊a / b⌋ : ℤ) : ℚ)

/-- `class InfoMessage` (src/homework.py lines 5-12): the summary value
object with the workout type name and the four numeric fields. -/
structure InfoMessage where
  training_type : String
  duration : ℚ
  distance : ℚ
  speed : ℚ
  calories : ℚ
deriving DecidableEq, Repr

/-- The `Training` hierarchy (src/homework.py lines 24-129) as a sum type:
`Running(action, duration, weight)`,
`SportsWalking(action, duration, weight, height)`,
`Swimming(action, duration, weight, length_pool, count_pool)`.
All numeric constructor arguments are modelled as `ℚ` since `read_package`
passes the raw sensor values through unchecked. -/
inductive Training where
  | running (action duration weight : ℚ)
  | sportsWalking (action duration weight height : ℚ)
  | swimming (action duration weight length_pool count_pool : ℚ)
deriving DecidableEq, Repr

namespace Training

/-- `self.action`. -/
def action : Training → ℚ
  | .running a _ _ => a
  | .sportsWalking a _ _ _ => a
  | .swimming a _ _ _ _ => a

/-- `self.duration`. -/
def duration : Training → ℚ
  | .running _ d _ => d
  | .sportsWalking _ d _ _ => d
  | .swimming _ d _ _ _ => d

/-- `self.weight`. -/
def weight : Training → ℚ
  | .running _ _ w => w
  | .sportsWalking _ _ w _ => w
  | .swimming _ _ w _ _ => w

/-- `LEN_STEP`: class constant `0.65` on `Training` (line 27), overridden to
`1.38` by `Swimming` (line 104). -/
def LEN_STEP : Training → ℚ
  | .swimming _ _ _ _ _ => 1.38
  | _ => 0.65

/-- `M_IN_KM: int = 1000` (line 28), a class constant, never overridden. -/
def M_IN_KM : ℚ := 1000

/-- `MIN_IN_HOUR: int = 60` (line 29), a class constant, never overridden. -/
def MIN_IN_HOUR : ℚ := 60

/-- `Training.get_distance` (lines 40-43):
`self.action * self.LEN_STEP / self.M_IN_KM`.  Not overridden by any
subclass, so one equation serves all three variants. -/
def get_distance (t : Training) : Except PyExn ℚ :=
  pydiv (t.action * t.LEN_STEP) M_IN_KM

/-- `get_mean_speed`: the base-class body (lines 45-48) is
`self.get_distance() / self.duration`, used by `Running` and
`SportsWalking`; `Swimming` overrides it (lines 119-123) with
`(self.length_pool * self.count_pool) / self.M_IN_KM / self.duration`. -/
def get_mean_speed : Training → Except PyExn ℚ
  | .swimming _ d _ lp cp => do
      let x ← pydiv (lp * cp) M_IN_KM
      pydiv x d
  | t => do
      let dist ← t.get_distance
      pydiv dist t.duration

/-- `get_spent_calories`, overridden by each variant:
`Running` (lines 68-74):
`(((18 * get_mean_speed() - 20) * weight) / M_IN_KM * (duration * MIN_IN_HOUR))`;
`SportsWalking` (lines 92-98):
`((0.035 * weight + ((get_mean_speed() ** 2) // height) * 0.029 * height) * (duration * MIN_IN_HOUR))`;
`Swimming` (lines 125-129):
`((get_mean_speed() + 1.1) * 2 * weight)`. -/
def get_spent_calories : Training → Except PyExn ℚ
  | t@(.running _ d w) => do
      let training_time := d * MIN_IN_HOUR
      let ms ← t.get_mean_speed
      let x ← pydiv ((18 * ms - 20) * w) M_IN_KM
      pure (x * training_time)
  | t@(.sportsWalking _ d w h) => do
      let training_time := d * MIN_IN_HOUR
      let ms ← t.get_mean_speed
      let fd ← pyfloordiv (ms ^ 2) h
      pure ((0.035 * w + fd * 0.029 * h) * training_time)
  | t@(.swimming _ _ w _ _) => do
      let ms ← t.get_mean_speed
      pure ((ms + 1.1) * 2 * w)

/-- `self.__class__.__name__`, used by `show_training_info` (line 56). -/
def class_name : Training → String
  | .running _ _ _ => "Running"
  | .sportsWalking _ _ _ _ => "SportsWalking"
  | .swimming _ _ _ _ _ => "Swimming"

/-- `Training.show_training_info` (lines 54-59): build an `InfoMessage` from
the class name, the duration and the three computed statistics, with the
arguments evaluated left to right as in Python. -/
def show_training_info (t : Training) : Except PyExn InfoMessage := do
  let dist ← t.get_distance
  let ms ← t.get_mean_speed
  let cal ← t.get_spent_calories
  pure ⟨t.class_name, t.duration, dist, ms, cal⟩

end Training

/- ### Decimal formatting: Python `f-string` `:.3f` on the rational model -/

/-- Decimal digits of a natural number, most significant first, with a fuel
argument so the recursion is structural (fuel `n + 1` always suffices). -/
def natDigitsAux : ℕ → ℕ → List Char
  | 0, _ => []
  | fuel + 1, n =>
    if n < 10 then [Nat.digitChar n]
    else natDigitsAux fuel (n / 10) ++ [Nat.digitChar (n % 10)]

/-- Decimal rendering of a natural number (the integral part of `:.3f`). -/
def natDigits (n : ℕ) : List Char := natDigitsAux (n + 1) n

/-- Round half to even, the IEEE-754 / Python rounding used by `:.3f`. -/
def roundHalfEven (q : ℚ) : ℤ :=
  let f : ℤ := ⌊q⌋
  let r : ℚ := q - f
  if r < 1 / 2 then f
  else if 1 / 2 < r then f + 1
  else if f % 2 = 0 then f else f + 1

/-- `|q|` scaled by `10^3` and rounded to the nearest integer: the source of
all the digits printed by `:.3f`. -/
def scaled3 (q : ℚ) : ℕ := (roundHalfEven (|q| * 1000)).toNat

/-- Everything `:.3f` prints before the decimal point: an optional minus sign
and the decimal digits of the integral part. -/
def intStr3 (q : ℚ) : String :=
  (if q < 0 then "-" else "") ++ ⟨natDigits (scaled3 q / 1000)⟩

/-- The three zero-padded fractional digits printed by `:.3f`. -/
def fracStr3 (q : ℚ) : String :=
  ⟨[Nat.digitChar (scaled3 q % 1000 / 100),
    Nat.digitChar (scaled3 q % 1000 / 10 % 10),
    Nat.digitChar (scaled3 q % 1000 % 10)]⟩

/-- Python `f-string` formatting `x:.3f` on the rational model of a float. -/
def format3 (q : ℚ) : String := intStr3 q ++ "." ++ fracStr3 q

/-- `InfoMessage.get_message` (src/homework.py lines 14-21): the fixed
five-field template, each numeric field rendered with `:.3f`. -/
def InfoMessage.get_message (msg : InfoMessage) : String :=
  "Тип тренировки: " ++ msg.training_type ++ "; " ++
  "Длительность: " ++ format3 msg.duration ++ " ч.; " ++
  "Дистанция: " ++ format3 msg.distance ++ " км; " ++
  "Ср. скорость: " ++ format3 msg.speed ++ " км/ч; " ++
  "Потрачено ккал: " ++ format3 msg.calories ++ "."

/- ### Dispatcher and driver -/

/-- `read_package` (src/homework.py lines 132-141).  The dict maps
`"SWM" ↦ Swimming`, `"RUN" ↦ Running`, `"WLK" ↦ SportsWalking`; the lookup
`training[workout_type]` raises `KeyError` on any other code, which the
`except KeyError` clause turns into the returned `None`
(modelled `Except.ok none`).  Calling the resolved constructor with `*data`
of the wrong length raises `TypeError`, which is NOT caught (only `KeyError`
is), so it propagates (modelled `Except.error PyExn.typeError`). -/
def read_package (workout_type : String) (data : List ℚ) :
    Except PyExn (Option Training) :=
  if workout_type = "SWM" then
    match data with
    | [a, d, w, lp, cp] => .ok (some (.swimming a d w lp cp))
    | _ => .error .typeError
  else if workout_type = "RUN" then
    match data with
    | [a, d, w] => .ok (some (.running a d w))
    | _ => .error .typeError
  else if workout_type = "WLK" then
    match data with
    | [a, d, w, h] => .ok (some (.sportsWalking a d w h))
    | _ => .error .typeError
  else .ok none

namespace Homework

/-- `main` (src/homework.py lines 144-147): compute the summary and return
the line that `print` emits.  (Namespaced because a bare `main` has a
reserved meaning in Lean.) -/
def main (training : Training) : Except PyExn String := do
  let info ← training.show_training_info
  pure info.get_message

end Homework

/-- The hardcoded `packages` batch of the `__main__` driver
(src/homework.py lines 151-155).  Note the first code is `'SM'`,
not `'SWM'`. -/
def packages : List (String × List ℚ) :=
  [("SM", [720, 1, 80, 25, 40]),
   ("RUN", [15000, 1, 75]),
   ("WLK", [9000, 1, 75, 180])]

/-- The diagnostic printed by the driver when `read_package` returns `None`
(src/homework.py line 160). -/
def sensor_failure_message : String :=
  "Сбой в работе датчика - тип тренировки не определен."

/-- One iteration of the `__main__` loop (src/homework.py lines 157-163):
if `read_package` returns `None`, print the diagnostic, else print the
summary via `main`.  (`read_package` is called twice in the source; it is
pure, so one call models both.) -/
def process_package (p : String × List ℚ) : Except PyExn String :=
  match read_package p.1 p.2 with
  | .error e => .error e
  | .ok none => .ok sensor_failure_message
  | .ok (some t) => Homework.main t

/-- The whole `__main__` driver: the ordered list of lines printed to
standard output (an `Except.error` would model the batch dying on an
uncaught exception). -/
def driver_output : Except PyExn (List String) :=
  packages.mapM process_package

/-! ### Helper lemmas -/

theorem ok_bind {α β : Type} (a : α) (f : α → Except PyExn β) :
    (Except.ok a >>= f) = f a := rfl

theorem error_bind {α β : Type} (e : PyExn) (f : α → Except PyExn β) :
    ((Except.error e : Except PyExn α) >>= f) = .error e := rfl

theorem pydiv_zero (a : ℚ) : pydiv a 0 = .error .zeroDivisionError := by
  simp [pydiv]

theorem pyfloordiv_zero (a : ℚ) :
    pyfloordiv a 0 = .error .zeroDivisionError := by
  simp [pyfloordiv]

theorem roundHalfEven_intCast (n : ℤ) : roundHalfEven (n : ℚ) = n := by
  unfold roundHalfEven
  norm_num

theorem scaled3_nat (q : ℚ) (n : ℕ) (hq : 0 ≤ q) (h : q * 1000 = (n : ℚ)) :
    scaled3 q = n := by
  have hc : ((n : ℚ)) = ((n : ℤ) : ℚ) := by push_cast; ring
  rw [scaled3, abs_of_nonneg hq, h, hc, roundHalfEven_intCast]
  simp

/-- Closed form of `format3` on a nonnegative rational that is an exact
multiple of `0.001` (so no rounding is involved). -/
theorem format3_nonneg_int (q : ℚ) (n : ℕ) (hq : 0 ≤ q)
    (h : q * 1000 = (n : ℚ)) :
    format3 q = ⟨natDigits (n / 1000)⟩ ++ "." ++
      ⟨[Nat.digitChar (n % 1000 / 100), Nat.digitChar (n % 1000 / 10 % 10),
        Nat.digitChar (n % 1000 % 10)]⟩ := by
  have hs : scaled3 q = n := scaled3_nat q n hq h
  have hneg : ¬ q < 0 := not_lt.mpr hq
  rw [format3, intStr3, fracStr3, hs]
  simp [hneg]

/-! ### Claims -/

/-- C1: for every Running record with `durationHours ≠ 0`, `caloriesKcal()`
returns `((18 * meanSpeedKmh() - 20) * weightKg / 1000) * (durationHours * 60)`,
where `meanSpeedKmh() = (actionCount * 0.65 / 1000) / durationHours`. -/
theorem C1_running_calories (a d w : ℚ) (hd : d ≠ 0) :
    Training.get_mean_speed (.running a d w) = .ok ((a * 0.65 / 1000) / d) ∧
    Training.get_spent_calories (.running a d w) =
      .ok (((18 * ((a * 0.65 / 1000) / d) - 20) * w / 1000) * (d * 60)) := by
  constructor
  · simp [Training.get_mean_speed, Training.get_distance, Training.action,
      Training.duration, Training.LEN_STEP, Training.M_IN_KM, pydiv, hd,
      ok_bind]
  · simp [Training.get_spent_calories, Training.get_mean_speed,
      Training.get_distance, Training.action, Training.duration,
      Training.LEN_STEP, Training.M_IN_KM, Training.MIN_IN_HOUR, pydiv, hd,
      ok_bind]

/-- Witness for C1 at the reference running input. -/
theorem C1_running_calories_witness :
    Training.get_mean_speed (.running 15000 1 75) =
      .ok ((15000 * 0.65 / 1000) / 1) ∧
    Training.get_spent_calories (.running 15000 1 75) =
      .ok (((18 * ((15000 * 0.65 / 1000) / 1) - 20) * 75 / 1000) *
        (1 * 60)) :=
  C1_running_calories 15000 1 75 (by norm_num)

/-- C2: for every Swimming record with `durationHours ≠ 0`,
`meanSpeedKmh()` returns `(poolLengthM * poolCrossings / 1000) / durationHours`
(the override, which ignores the generic distance-based formula) and
`caloriesKcal()` returns `(meanSpeedKmh() + 1.1) * 2 * weightKg`; in
particular for `action=720, duration=1, weight=80, poolLength=25,
poolCrossings=40` the mean speed is `1.0` and the calories are `336.0`. -/
theorem C2_swimming_formulas (a d w lp cp : ℚ) (hd : d ≠ 0) :
    (Training.get_mean_speed (.swimming a d w lp cp) =
       .ok ((lp * cp / 1000) / d) ∧
     Training.get_spent_calories (.swimming a d w lp cp) =
       .ok (((lp * cp / 1000) / d + 1.1) * 2 * w)) ∧
    Training.get_mean_speed (.swimming 720 1 80 25 40) = .ok 1 ∧
    Training.get_spent_calories (.swimming 720 1 80 25 40) = .ok 336 := by
  refine ⟨⟨?_, ?_⟩, ?_, ?_⟩
  · simp [Training.get_mean_speed, Training.M_IN_KM, pydiv, hd, ok_bind]
  · simp [Training.get_spent_calories, Training.get_mean_speed,
      Training.weight, Training.M_IN_KM, pydiv, hd, ok_bind]
  · simp [Training.get_mean_speed, Training.M_IN_KM, pydiv, ok_bind]
    norm_num
  · simp [Training.get_spent_calories, Training.get_mean_speed,
      Training.weight, Training.M_IN_KM, pydiv, ok_bind]
    norm_num

/-- Witness for C2 at the reference swimming input. -/
theorem C2_swimming_formulas_witness :
    Training.get_mean_speed (.swimming 720 1 80 25 40) =
      .ok ((25 * 40 / 1000) / 1) ∧
    Training.get_spent_calories (.swimming 720 1 80 25 40) =
      .ok (((25 * 40 / 1000) / 1 + 1.1) * 2 * 80) :=
  (C2_swimming_formulas 720 1 80 25 40 (by norm_num)).1

/-- C3: for every Walking record with `durationHours ≠ 0` and
`heightCm ≠ 0`, `caloriesKcal()` returns
`(0.035 * weightKg + floor(meanSpeedKmh()^2 / heightCm) * 0.029 * heightCm) * (durationHours * 60)`
with the inner division a floor division; in particular for
`action=9000, duration=1, weight=75, height=180` the mean speed is `5.85`,
the floor term is `0`, and the calories are `157.5`. -/
theorem C3_walking_calories (a d w h : ℚ) (hd : d ≠ 0) (hh : h ≠ 0) :
    Training.get_spent_calories (.sportsWalking a d w h) =
      .ok ((0.035 * w +
        ((⌊((a * 0.65 / 1000) / d) ^ 2 / h⌋ : ℤ) : ℚ) * 0.029 * h) *
        (d * 60)) ∧
    Training.get_mean_speed (.sportsWalking 9000 1 75 180) = .ok 5.85 ∧
    (⌊(5.85 : ℚ) ^ 2 / 180⌋ : ℤ) = 0 ∧
    Training.get_spent_calories (.sportsWalking 9000 1 75 180) =
      .ok 157.5 := by
  refine ⟨?_, ?_, ?_, ?_⟩
  · simp [Training.get_spent_calories, Training.get_mean_speed,
      Training.get_distance, Training.action, Training.duration,
      Training.LEN_STEP, Training.M_IN_KM, Training.MIN_IN_HOUR,
      pydiv, pyfloordiv, hd, hh, ok_bind]
  · simp [Training.get_mean_speed, Training.get_distance, Training.action,
      Training.duration, Training.LEN_STEP, Training.M_IN_KM, pydiv, ok_bind]
    norm_num
  · norm_num
  · simp [Training.get_spent_calories, Training.get_mean_speed,
      Training.get_distance, Training.action, Training.duration,
      Training.LEN_STEP, Training.M_IN_KM, Training.MIN_IN_HOUR,
      pydiv, pyfloordiv, ok_bind]
    norm_num

/-- Witness for C3 at the reference walking input. -/
theorem C3_walking_calories_witness :
    Training.get_spent_calories (.sportsWalking 9000 1 75 180) =
      .ok ((0.035 * 75 +
        ((⌊(((9000 : ℚ) * 0.65 / 1000) / 1) ^ 2 / 180⌋ : ℤ) : ℚ) * 0.029 *
          180) *
        (1 * 60)) :=
  (C3_walking_calories 9000 1 75 180 (by norm_num) (by norm_num)).1

/-- C4 counterexample: at `action=15000, duration=1, weight=75` the Running
calories are exactly `699.75`, not approximately `728.775` as the claim
states (the difference is `29.025`). -/
theorem C4_calories_counterexample :
    Training.get_spent_calories (.running 15000 1 75) = .ok 699.75 ∧
    (699.75 : ℚ) ≠ 728.775 ∧ |(699.75 : ℚ) - 728.775| = 29.025 := by
  refine ⟨?_, by norm_num, by norm_num⟩
  simp [Training.get_spent_calories, Training.get_mean_speed,
    Training.get_distance, Training.action, Training.duration,
    Training.LEN_STEP, Training.M_IN_KM, Training.MIN_IN_HOUR, pydiv,
    ok_bind]
  norm_num

/-- C4 amended: for a Running record with `action=15000, duration=1,
weight=75`, `distanceKm()` returns `9.75`, `meanSpeedKmh()` returns `9.75`,
and `caloriesKcal()` returns exactly `699.75`
(`((18 * 9.75 - 20) * 75 / 1000) * 60 = 699.75`). -/
theorem C4_running_example :
    Training.get_distance (.running 15000 1 75) = .ok 9.75 ∧
    Training.get_mean_speed (.running 15000 1 75) = .ok 9.75 ∧
    Training.get_spent_calories (.running 15000 1 75) = .ok 699.75 := by
  refine ⟨?_, ?_, ?_⟩
  · simp [Training.get_distance, Training.action, Training.LEN_STEP,
      Training.M_IN_KM, pydiv]
    norm_num
  · simp [Training.get_mean_speed, Training.get_distance, Training.action,
      Training.duration, Training.LEN_STEP, Training.M_IN_KM, pydiv, ok_bind]
    norm_num
  · simp [Training.get_spent_calories, Training.get_mean_speed,
      Training.get_distance, Training.action, Training.duration,
      Training.LEN_STEP, Training.M_IN_KM, Training.MIN_IN_HOUR, pydiv,
      ok_bind]
    norm_num

/-- C5: for every code not in `{"SWM", "RUN", "WLK"}` and any raw-value
list, `read_package` yields the invalid-code failure result (the `None`
produced by the `except KeyError` clause, modelled `Except.ok none`) and
never constructs a workout record. -/
theorem C5_invalid_code (code : String) (data : List ℚ)
    (h1 : code ≠ "SWM") (h2 : code ≠ "RUN") (h3 : code ≠ "WLK") :
    read_package code data = .ok none ∧
    ∀ t : Training, read_package code data ≠ .ok (some t) := by
  have h : read_package code data = .ok none := by
    simp [read_package, h1, h2, h3]
  exact ⟨h, fun t ht => by rw [h] at ht; simp at ht⟩

/-- Witness for C5 at the driver's stray code `"SM"`. -/
theorem C5_invalid_code_witness :
    read_package "SM" [720, 1, 80, 25, 40] = .ok none :=
  (C5_invalid_code "SM" [720, 1, 80, 25, 40]
    (by decide) (by decide) (by decide)).1

/-- Wrong arity for `"SWM"`: the `Swimming` constructor called through
`*data` raises `TypeError`, which `read_package` does not catch. -/
theorem read_package_swm_arity (data : List ℚ) (h : data.length ≠ 5) :
    read_package "SWM" data = .error .typeError := by
  rcases data with _ | ⟨x1, _ | ⟨x2, _ | ⟨x3, _ | ⟨x4, _ | ⟨x5, _ | ⟨x6, rest⟩⟩⟩⟩⟩⟩ <;>
    first
      | rfl
      | simp at h

/-- Wrong arity for `"RUN"`: the `Running` constructor called through
`*data` raises `TypeError`, which `read_package` does not catch. -/
theorem read_package_run_arity (data : List ℚ) (h : data.length ≠ 3) :
    read_package "RUN" data = .error .typeError := by
  rcases data with _ | ⟨x1, _ | ⟨x2, _ | ⟨x3, _ | ⟨x4, rest⟩⟩⟩⟩ <;>
    first
      | rfl
      | simp at h

/-- Wrong arity for `"WLK"`: the `SportsWalking` constructor called through
`*data` raises `TypeError`, which `read_package` does not catch. -/
theorem read_package_wlk_arity (data : List ℚ) (h : data.length ≠ 4) :
    read_package "WLK" data = .error .typeError := by
  rcases data with _ | ⟨x1, _ | ⟨x2, _ | ⟨x3, _ | ⟨x4, _ | ⟨x5, rest⟩⟩⟩⟩⟩ <;>
    first
      | rfl
      | simp at h

/-- C6 counterexample: `read_package("RUN", [1, 2])` does not yield a
distinct named ArityMismatch failure result; it raises Python's generic
`TypeError` (the `except KeyError` clause does not catch it), an uncaught
exception that also propagates through the driver's per-entry processing
instead of being surfaced as a handled failure. -/
theorem C6_arity_counterexample :
    read_package "RUN" [1, 2] = .error .typeError ∧
    process_package ("RUN", [1, 2]) = .error .typeError := by
  constructor <;> rfl

/-- C6 amended: for every recognized code called with the wrong number of
raw values, `read_package` raises Python's generic construction error
`TypeError` (uncaught, since only `KeyError` is handled), not a distinct
named ArityMismatch failure; in particular `read_package("RUN", [1, 2])`
raises `TypeError`. -/
theorem C6_wrong_arity (code : String) (data : List ℚ)
    (h : (code = "SWM" ∧ data.length ≠ 5) ∨ (code = "RUN" ∧ data.length ≠ 3) ∨
      (code = "WLK" ∧ data.length ≠ 4)) :
    read_package code data = .error .typeError := by
  rcases h with ⟨rfl, h⟩ | ⟨rfl, h⟩ | ⟨rfl, h⟩
  · exact read_package_swm_arity data h
  · exact read_package_run_arity data h
  · exact read_package_wlk_arity data h

/-- Witness for C6 (amended) at the spec's own example input. -/
theorem C6_wrong_arity_witness :
    read_package "RUN" [1, 2] = .error .typeError :=
  C6_wrong_arity "RUN" [1, 2] (.inr (.inl ⟨rfl, by decide⟩))

/-- `Nat.digitChar` of a value below ten is a decimal digit character. -/
theorem digitChar_isDigit {m : ℕ} (h : m < 10) :
    (Nat.digitChar m).isDigit = true := by
  interval_cases m <;> rfl

/-- Every character emitted by `natDigitsAux` is a decimal digit. -/
theorem natDigitsAux_isDigit (fuel : ℕ) :
    ∀ n : ℕ, ∀ c ∈ natDigitsAux fuel n, c.isDigit = true := by
  induction fuel with
  | zero => intro n c hc; simp [natDigitsAux] at hc
  | succ fuel ih =>
    intro n c hc
    rw [natDigitsAux] at hc
    by_cases h : n < 10
    · rw [if_pos h] at hc
      simp at hc
      subst hc
      exact digitChar_isDigit h
    · rw [if_neg h] at hc
      simp at hc
      rcases hc with hc | hc
      · exact ih _ c hc
      · subst hc
        exact digitChar_isDigit (Nat.mod_lt _ (by norm_num))

/-- Every character emitted by `natDigits` is a decimal digit. -/
theorem natDigits_isDigit (n : ℕ) : ∀ c ∈ natDigits n, c.isDigit = true :=
  natDigitsAux_isDigit (n + 1) n

/-- The part of `format3` before the decimal point contains no `.`, so the
decimal point of `format3` is unambiguous. -/
theorem dot_not_mem_intStr3 (q : ℚ) : '.' ∉ (intStr3 q).data := by
  rw [intStr3]
  intro hmem
  rw [String.data_append] at hmem
  rcases List.mem_append.mp hmem with hm | hm
  · by_cases h : q < 0 <;> simp [h] at hm
  · exact absurd (natDigits_isDigit _ _ hm) (by decide)

/-- The fractional part of `format3` is exactly three decimal digits. -/
theorem fracStr3_digits (q : ℚ) :
    (fracStr3 q).length = 3 ∧ ∀ c ∈ (fracStr3 q).data, c.isDigit = true := by
  constructor
  · rfl
  · intro c hc
    rw [fracStr3] at hc
    simp at hc
    have h1 : scaled3 q % 1000 / 100 < 10 := by
      have := Nat.mod_lt (scaled3 q) (show 0 < 1000 by norm_num)
      omega
    have h2 : scaled3 q % 1000 / 10 % 10 < 10 := Nat.mod_lt _ (by norm_num)
    have h3 : scaled3 q % 1000 % 10 < 10 := Nat.mod_lt _ (by norm_num)
    rcases hc with rfl | rfl | rfl
    · exact digitChar_isDigit h1
    · exact digitChar_isDigit h2
    · exact digitChar_isDigit h3

/-- C7: `get_message` renders the single fixed five-field template, and each
numeric field is printed by `format3`, which always consists of a dot-free
integral part, a decimal point, and exactly 3 decimal digits, for every
input magnitude. -/
theorem C7_fixed_template_three_decimals :
    (∀ msg : InfoMessage, msg.get_message =
      "Тип тренировки: " ++ msg.training_type ++ "; " ++
      "Длительность: " ++ format3 msg.duration ++ " ч.; " ++
      "Дистанция: " ++ format3 msg.distance ++ " км; " ++
      "Ср. скорость: " ++ format3 msg.speed ++ " км/ч; " ++
      "Потрачено ккал: " ++ format3 msg.calories ++ ".") ∧
    (∀ q : ℚ, format3 q = intStr3 q ++ "." ++ fracStr3 q ∧
      (fracStr3 q).length = 3 ∧
      (∀ c ∈ (fracStr3 q).data, c.isDigit = true) ∧
      '.' ∉ (intStr3 q).data) := by
  refine ⟨fun msg => rfl, fun q => ⟨rfl, (fracStr3_digits q).1,
    (fracStr3_digits q).2, dot_not_mem_intStr3 q⟩⟩

/-- Witness for C7 at a concrete summary and a concrete large value. -/
theorem C7_fixed_template_three_decimals_witness :
    (InfoMessage.get_message ⟨"Running", 1, 9.75, 9.75, 699.75⟩ =
      "Тип тренировки: " ++ "Running" ++ "; " ++
      "Длительность: " ++ format3 1 ++ " ч.; " ++
      "Дистанция: " ++ format3 9.75 ++ " км; " ++
      "Ср. скорость: " ++ format3 9.75 ++ " км/ч; " ++
      "Потрачено ккал: " ++ format3 699.75 ++ ".") ∧
    (fracStr3 (123456789 : ℚ)).length = 3 :=
  ⟨C7_fixed_template_three_decimals.1 ⟨"Running", 1, 9.75, 9.75, 699.75⟩,
    (C7_fixed_template_three_decimals.2 (123456789 : ℚ)).2.1⟩

/-- C8: `get_mean_speed` never takes the error branch when the duration is
non-zero; with a zero duration it raises the divide-by-zero error, which is
caught nowhere and propagates through `get_spent_calories` and
`show_training_info`; for Walking, `get_spent_calories` additionally needs a
non-zero height and raises the same uncaught error when the height is
zero. -/
theorem C8_division_guards :
    (∀ t : Training, t.duration ≠ 0 → ∃ v, t.get_mean_speed = .ok v) ∧
    (∀ t : Training, t.duration = 0 →
      t.get_mean_speed = .error .zeroDivisionError) ∧
    (∀ t : Training, t.duration = 0 →
      t.get_spent_calories = .error .zeroDivisionError) ∧
    (∀ t : Training, t.duration = 0 →
      t.show_training_info = .error .zeroDivisionError) ∧
    (∀ a d w h : ℚ, d ≠ 0 → h = 0 →
      Training.get_spent_calories (.sportsWalking a d w h) =
        .error .zeroDivisionError) ∧
    (∀ a d w h : ℚ, d ≠ 0 → h ≠ 0 →
      ∃ v, Training.get_spent_calories (.sportsWalking a d w h) = .ok v) := by
  refine ⟨?_, ?_, ?_, ?_, ?_, ?_⟩
  · intro t hd
    cases t with
    | running a d w =>
      simp [Training.duration] at hd
      exact ⟨(a * 0.65 / 1000) / d, by
        simp [Training.get_mean_speed, Training.get_distance, Training.action,
          Training.duration, Training.LEN_STEP, Training.M_IN_KM, pydiv, hd,
          ok_bind]⟩
    | sportsWalking a d w h =>
      simp [Training.duration] at hd
      exact ⟨(a * 0.65 / 1000) / d, by
        simp [Training.get_mean_speed, Training.get_distance, Training.action,
          Training.duration, Training.LEN_STEP, Training.M_IN_KM, pydiv, hd,
          ok_bind]⟩
    | swimming a d w lp cp =>
      simp [Training.duration] at hd
      exact ⟨(lp * cp / 1000) / d, by
        simp [Training.get_mean_speed, Training.M_IN_KM, pydiv, hd, ok_bind]⟩
  · intro t hd
    cases t <;>
      simp_all [Training.get_mean_speed, Training.get_distance,
        Training.action, Training.duration, Training.LEN_STEP,
        Training.M_IN_KM, pydiv, ok_bind]
  · intro t hd
    cases t <;>
      simp_all [Training.get_spent_calories, Training.get_mean_speed,
        Training.get_distance, Training.action, Training.duration,
        Training.LEN_STEP, Training.M_IN_KM, Training.MIN_IN_HOUR, pydiv,
        ok_bind, error_bind]
  · intro t hd
    cases t <;>
      simp_all [Training.show_training_info, Training.get_spent_calories,
        Training.get_mean_speed, Training.get_distance, Training.action,
        Training.duration, Training.LEN_STEP, Training.M_IN_KM,
        Training.MIN_IN_HOUR, pydiv, ok_bind, error_bind]
  · intro a d w h hd hh
    subst hh
    simp [Training.get_spent_calories, Training.get_mean_speed,
      Training.get_distance, Training.action, Training.duration,
      Training.LEN_STEP, Training.M_IN_KM, Training.MIN_IN_HOUR, pydiv,
      pyfloordiv, hd, ok_bind, error_bind]
  · intro a d w h hd hh
    exact ⟨(0.035 * w +
        ((⌊((a * 0.65 / 1000) / d) ^ 2 / h⌋ : ℤ) : ℚ) * 0.029 * h) *
        (d * 60), by
      simp [Training.get_spent_calories, Training.get_mean_speed,
        Training.get_distance, Training.action, Training.duration,
        Training.LEN_STEP, Training.M_IN_KM, Training.MIN_IN_HOUR, pydiv,
        pyfloordiv, hd, hh, ok_bind]⟩

/-- Witness for C8 at concrete records with zero and non-zero divisors. -/
theorem C8_division_guards_witness :
    (∃ v, Training.get_mean_speed (.running 15000 1 75) = .ok v) ∧
    Training.get_mean_speed (.running 15000 0 75) =
      .error .zeroDivisionError ∧
    Training.show_training_info (.running 15000 0 75) =
      .error .zeroDivisionError ∧
    Training.get_spent_calories (.sportsWalking 9000 1 75 0) =
      .error .zeroDivisionError :=
  ⟨C8_division_guards.1 (.running 15000 1 75) (by norm_num [Training.duration]),
   C8_division_guards.2.1 (.running 15000 0 75) rfl,
   C8_division_guards.2.2.2.1 (.running 15000 0 75) rfl,
   C8_division_guards.2.2.2.2.1 9000 1 75 0 (by norm_num) rfl⟩

/-- `f'{1:.3f}' = "1.000"`. -/
theorem format3_one : format3 (1 : ℚ) = "1.000" := by
  rw [format3_nonneg_int 1 1000 (by norm_num) (by norm_num)]
  decide

/-- `f'{9.75:.3f}' = "9.750"`. -/
theorem format3_975 : format3 (39/4 : ℚ) = "9.750" := by
  rw [format3_nonneg_int (39/4) 9750 (by norm_num) (by norm_num)]
  decide

/-- `f'{699.75:.3f}' = "699.750"`. -/
theorem format3_69975 : format3 (2799/4 : ℚ) = "699.750" := by
  rw [format3_nonneg_int (2799/4) 699750 (by norm_num) (by norm_num)]
  decide

/-- `f'{5.85:.3f}' = "5.850"`. -/
theorem format3_585 : format3 (117/20 : ℚ) = "5.850" := by
  rw [format3_nonneg_int (117/20) 5850 (by norm_num) (by norm_num)]
  decide

/-- `f'{157.5:.3f}' = "157.500"`. -/
theorem format3_1575 : format3 (315/2 : ℚ) = "157.500" := by
  rw [format3_nonneg_int (315/2) 157500 (by norm_num) (by norm_num)]
  decide

/-- The summary record of the driver's running entry. -/
theorem run_show_training_info :
    Training.show_training_info (.running 15000 1 75) =
      .ok ⟨"Running", 1, 39/4, 39/4, 2799/4⟩ := by
  simp [Training.show_training_info, Training.get_spent_calories,
    Training.get_mean_speed, Training.get_distance, Training.action,
    Training.duration, Training.class_name, Training.LEN_STEP,
    Training.M_IN_KM, Training.MIN_IN_HOUR, pydiv, ok_bind]
  norm_num

/-- The summary record of the driver's walking entry. -/
theorem wlk_show_training_info :
    Training.show_training_info (.sportsWalking 9000 1 75 180) =
      .ok ⟨"SportsWalking", 1, 117/20, 117/20, 315/2⟩ := by
  simp [Training.show_training_info, Training.get_spent_calories,
    Training.get_mean_speed, Training.get_distance, Training.action,
    Training.duration, Training.class_name, Training.LEN_STEP,
    Training.M_IN_KM, Training.MIN_IN_HOUR, pydiv, pyfloordiv, ok_bind]
  norm_num

/-- The exact line printed for the driver's running entry. -/
theorem run_output_line : Homework.main (.running 15000 1 75) =
    .ok "Тип тренировки: Running; Длительность: 1.000 ч.; Дистанция: 9.750 км; Ср. скорость: 9.750 км/ч; Потрачено ккал: 699.750." := by
  rw [Homework.main, run_show_training_info, ok_bind]
  rw [show (⟨"Running", 1, 39/4, 39/4, 2799/4⟩ : InfoMessage).get_message =
    "Тип тренировки: " ++ "Running" ++ "; " ++
    "Длительность: " ++ format3 1 ++ " ч.; " ++
    "Дистанция: " ++ format3 (39/4) ++ " км; " ++
    "Ср. скорость: " ++ format3 (39/4) ++ " км/ч; " ++
    "Потрачено ккал: " ++ format3 (2799/4) ++ "." from rfl]
  rw [format3_one, format3_975, format3_69975]
  decide

/-- The exact line printed for the driver's walking entry. -/
theorem wlk_output_line : Homework.main (.sportsWalking 9000 1 75 180) =
    .ok "Тип тренировки: SportsWalking; Длительность: 1.000 ч.; Дистанция: 5.850 км; Ср. скорость: 5.850 км/ч; Потрачено ккал: 157.500." := by
  rw [Homework.main, wlk_show_training_info, ok_bind]
  rw [show (⟨"SportsWalking", 1, 117/20, 117/20, 315/2⟩ :
      InfoMessage).get_message =
    "Тип тренировки: " ++ "SportsWalking" ++ "; " ++
    "Длительность: " ++ format3 1 ++ " ч.; " ++
    "Дистанция: " ++ format3 (117/20) ++ " км; " ++
    "Ср. скорость: " ++ format3 (117/20) ++ " км/ч; " ++
    "Потрачено ккал: " ++ format3 (315/2) ++ "." from rfl]
  rw [format3_one, format3_585, format3_1575]
  decide

/-- C9 counterexample: the driver's hardcoded batch starts with code
`"SM"`, not `"SWM"`; that code is unrecognized, so the first entry is not
successfully processed (it yields the `None` failure, for which the driver
prints the diagnostic instead of a summary line). -/
theorem C9_batch_counterexample :
    packages ≠ [("SWM", [720, 1, 80, 25, 40]), ("RUN", [15000, 1, 75]),
      ("WLK", [9000, 1, 75, 180])] ∧
    packages.head? = some ("SM", [720, 1, 80, 25, 40]) ∧
    read_package "SM" [720, 1, 80, 25, 40] = .ok none := by
  refine ⟨?_, rfl, rfl⟩
  intro hcontra
  have h := congrArg (fun l => (l.headD ("", [])).1) hcontra
  simp [packages] at h

/-- C9 amended: the driver's hardcoded batch is exactly
`("SM", [720,1,80,25,40])`, `("RUN", [15000,1,75])`,
`("WLK", [9000,1,75,180])`; running the driver prints, in batch order, the
sensor-failure diagnostic for the first entry (its code is unrecognized)
and one formatted summary line for each of the other two entries. -/
theorem C9_driver_batch_output :
    packages = [("SM", [720, 1, 80, 25, 40]), ("RUN", [15000, 1, 75]),
      ("WLK", [9000, 1, 75, 180])] ∧
    driver_output = .ok [sensor_failure_message,
      "Тип тренировки: Running; Длительность: 1.000 ч.; Дистанция: 9.750 км; Ср. скорость: 9.750 км/ч; Потрачено ккал: 699.750.",
      "Тип тренировки: SportsWalking; Длительность: 1.000 ч.; Дистанция: 5.850 км; Ср. скорость: 5.850 км/ч; Потрачено ккал: 157.500."] := by
  refine ⟨rfl, ?_⟩
  have hp1 : process_package ("SM", [720, 1, 80, 25, 40]) =
      .ok sensor_failure_message := rfl
  have hp2 : process_package ("RUN", [15000, 1, 75]) =
      Homework.main (.running 15000 1 75) := rfl
  have hp3 : process_package ("WLK", [9000, 1, 75, 180]) =
      Homework.main (.sportsWalking 9000 1 75 180) := rfl
  rw [driver_output, packages, List.mapM]
  simp only [List.mapM.loop]
  rw [hp1, hp2, run_output_line, hp3, wlk_output_line]
  simp [ok_bind, sensor_failure_message]

/-- C10: Swimming's `distanceKm()` is stroke-based
(`actionCount * 1.38 / 1000`) while its `meanSpeedKmh()` is pool-lap based
(`(poolLengthM * poolCrossings / 1000) / durationHours`), so
`meanSpeed * duration` equals the reported distance exactly when
`actionCount * 1.38 = poolLengthM * poolCrossings`; at the reference
swimming input the distance is `0.9936` km while speed times duration is
`1.0` km. -/
theorem C10_swimming_distance_speed_mismatch (a d w lp cp : ℚ)
    (hd : d ≠ 0) :
    Training.get_distance (.swimming a d w lp cp) = .ok (a * 1.38 / 1000) ∧
    Training.get_mean_speed (.swimming a d w lp cp) =
      .ok ((lp * cp / 1000) / d) ∧
    (((lp * cp / 1000) / d) * d = a * 1.38 / 1000 ↔ a * 1.38 = lp * cp) ∧
    Training.get_distance (.swimming 720 1 80 25 40) = .ok 0.9936 ∧
    ((25 * 40 / 1000 : ℚ) / 1) * 1 = 1 := by
  refine ⟨?_, ?_, ?_, ?_, by norm_num⟩
  · simp [Training.get_distance, Training.action, Training.LEN_STEP,
      Training.M_IN_KM, pydiv]
  · simp [Training.get_mean_speed, Training.M_IN_KM, pydiv, hd, ok_bind]
  · rw [div_mul_cancel₀ _ hd]
    constructor <;> intro hx
    · field_simp at hx
      linarith
    · rw [hx]
  · simp [Training.get_distance, Training.action, Training.LEN_STEP,
      Training.M_IN_KM, pydiv]
    norm_num

/-- Witness for C10 at the reference swimming input. -/
theorem C10_swimming_distance_speed_mismatch_witness :
    Training.get_distance (.swimming 720 1 80 25 40) =
      .ok (720 * 1.38 / 1000) ∧
    Training.get_mean_speed (.swimming 720 1 80 25 40) =
      .ok ((25 * 40 / 1000) / 1) :=
  ⟨(C10_swimming_distance_speed_mismatch 720 1 80 25 40 (by norm_num)).1,
   (C10_swimming_distance_speed_mismatch 720 1 80 25 40 (by norm_num)).2.1⟩
